import Mathlib

/-!
Verification of the inventory-prediction backend (src/main.py and
src/utils/data_preprocessing.py).

The development shallowly embeds the request pipeline of the
`/inventory/predict` endpoint and the authentication endpoints.
Uploaded files are modelled after byte decoding and line splitting as a
header plus rows of string fields (`Csv`); `read_csv` mirrors
`pd.read_csv` restricted to the behaviour the claims exercise
(consistent row widths, integer dtype inference).  `src/main.py` calls
`pd.compat.StringIO`; the text-to-table step is modelled as standard
CSV parsing.

Numeric statistics of a column are exact rationals; the standardized
values produced by `StandardScaler` live in `ℝ` because the scale is a
square root of the population variance.
-/

namespace App

/-- A cell of a parsed table: pandas infers a numeric or string dtype per
column.  Numeric inference is modelled for integer literals, which covers
every input the claims mention. -/
inductive Cell where
  | num (q : ℚ)
  | str (s : String)
  deriving DecidableEq, Repr

/-- Tests whether a cell is numeric. -/
def Cell.isNum : Cell → Bool
  | .num _ => true
  | .str _ => false

/-- Rendering of a cell, used to build dummy-column names. -/
def Cell.text : Cell → String
  | .num q => toString q
  | .str s => s

/-- Comparison used by `pd.get_dummies` when it sorts the distinct values
of the encoded column.  Numbers sort before strings; mixed-type columns do
not occur in the claims. -/
def Cell.le : Cell → Cell → Bool
  | .num a, .num b => a ≤ b
  | .num _, .str _ => true
  | .str _, .num _ => false
  | .str a, .str b => a ≤ b

/-- A parsed data frame: named columns holding cell values
(the result of `pd.read_csv`). -/
structure Df where
  cols : List (String × List Cell)
  deriving DecidableEq

/-- Column names, in order. -/
def Df.colNames (df : Df) : List String := df.cols.map Prod.fst

/-- Column selection `df[name]`: first column with that name, if any. -/
def Df.getCol (df : Df) (name : String) : Option (List Cell) :=
  (df.cols.find? (fun c => c.1 = name)).map Prod.snd

/-- Column selection `df[name]`, raising `KeyError` when absent. -/
def getColE (df : Df) (name : String) : Except String (List Cell) :=
  match df.getCol name with
  | some v => Except.ok (v)
  | none => Except.error ( "KeyError: " ++ name)

/-- An uploaded CSV file after byte decoding and line splitting:
a header record and the data records. -/
structure Csv where
  header : List String
  rows : List (List String)
  deriving DecidableEq

/-- Digit test over character codes. -/
def isDigitChar (c : Char) : Bool :=
  decide (48 ≤ c.toNat) && decide (c.toNat ≤ 57)

/-- Value of a digit string, most significant first. -/
def natOfDigits (cs : List Char) : ℕ :=
  cs.foldl (fun a c => 10 * a + (c.toNat - 48)) 0

/-- Numeric-literal inference for one field (integer literals, with an
optional leading minus sign). -/
def parseCell (s : String) : Option ℚ :=
  match s.data with
  | [] => none
  | '-' :: cs =>
    if cs ≠ [] ∧ cs.all isDigitChar then some (-(natOfDigits cs : ℚ)) else none
  | cs =>
    if cs.all isDigitChar then some ((natOfDigits cs : ℚ)) else none

/-- Parsing `pd.read_csv` applies to the decoded upload: every record must have as many
fields as the header (otherwise pandas raises a tokenizing error), and a
column whose fields are all numeric literals gets a numeric dtype. -/
def read_csv (file : Csv) : Except String Df :=
  if file.rows.all (fun r => r.length = file.header.length) then
    Except.ok ⟨file.header.enum.map (fun p =>
      let fields := file.rows.map (fun r => r.getD p.1 "")
      (p.2,
        if fields.all (fun s => (parseCell s).isSome) then
          fields.map (fun s => Cell.num ((parseCell s).getD 0))
        else
          fields.map (fun s => Cell.str s)))⟩
  else Except.error ( "Error tokenizing data")

/-- The fixed feature list of `preprocess_data`
(src/utils/data_preprocessing.py line 10). -/
def features : List String :=
  [ "Historical_Sales", "Promotion", "Day_of_Week", "Month", "Product_ID"]

/-- Effectful map over a list in the exception monad: the first raised
message aborts the traversal, as in the Python loops it models. -/
def exMap {α β : Type} (f : α → Except String β) : List α → Except String (List β)
  | [] => Except.ok []
  | x :: xs => do
    let y ← f x
    let ys ← exMap f xs
    Except.ok (y :: ys)

/-- Selection `X = df[features]`: selecting several columns raises a
`KeyError` when one is missing. -/
def selectCols (df : Df) (names : List String) :
    Except String (List (String × List Cell)) :=
  exMap (fun n =>
    match df.getCol n with
    | some v => Except.ok (n, v)
    | none => Except.error ( "KeyError: " ++ n)) names

/-- Insertion step of the sort used on the distinct categorical values. -/
def insertCell (x : Cell) : List Cell → List Cell
  | [] => [x]
  | y :: ys => if Cell.le x y then x :: y :: ys else y :: insertCell x ys

/-- Sorting a list of cells (pandas sorts the distinct values of the
encoded column before building dummy columns). -/
def sortCells : List Cell → List Cell
  | [] => []
  | x :: xs => insertCell x (sortCells xs)

/-- The dummy columns created for the categorical values `vals` under
`drop_first=True`: one indicator column per distinct value except the
first in sorted order. -/
def dummyCols (cat : String) (vals : List Cell) : List (String × List Cell) :=
  ((sortCells vals.dedup).drop 1).map (fun v =>
    (cat ++ "_" ++ v.text, vals.map (fun x => Cell.num (if x = v then 1 else 0))))

/-- Encoding `pd.get_dummies(X, columns=[cat], drop_first=True)`: the other columns
keep their original order, the dummy columns are appended. -/
def get_dummies (cols : List (String × List Cell)) (cat : String) :
    List (String × List Cell) :=
  cols.filter (fun c => c.1 ≠ cat) ++
    dummyCols cat ((cols.find? (fun c => c.1 = cat)).elim [] Prod.snd)

/-- Conversion of one column to floats, as `StandardScaler` does on the
whole array; a string cell raises. -/
def toNumCol (c : List Cell) : Except String (List ℚ) :=
  exMap (fun x =>
    match x with
    | .num q => Except.ok (q)
    | .str s => Except.error ( "could not convert string to float: " ++ s)) c

/-- Conversion of every column to floats. -/
def toNumCols (cols : List (String × List Cell)) :
    Except String (List (String × List ℚ)) :=
  exMap (fun c => (toNumCol c.2).map (fun v => (c.1, v))) cols

/-- Number of samples of the array handed to `StandardScaler`
(the length of its first column; the encoded table always has the four
non-categorical feature columns first). -/
def matNrows (cols : List (String × List ℚ)) : Nat :=
  (cols.head?).elim 0 (fun c => c.2.length)

/-- Mean of a rational column (`StandardScaler` statistics are computed
from the upload itself). -/
def qmean (c : List ℚ) : ℚ := c.sum / c.length

/-- Population variance (ddof 0) of a rational column. -/
def popVar (c : List ℚ) : ℚ :=
  (c.map (fun x => (x - qmean c) ^ 2)).sum / c.length

/-- The rational part of `preprocess_data` (src/utils/data_preprocessing.py
lines 9-18): select the feature columns and the target, one-hot encode
`Product_ID` with `drop_first=True`, convert to floats, and perform the
zero-sample check of `StandardScaler.fit_transform`.  The remaining step,
dividing each centered column by its scale, is real-valued and applied on
top by `preprocess_data`. -/
def preprocessQ (df : Df) :
    Except String (List (String × List ℚ) × List Cell) := do
  let sel ← selectCols df features
  let y ← getColE df "Demand"
  let enc := get_dummies sel "Product_ID"
  let Xq ← toNumCols enc
  if matNrows Xq = 0 then
    Except.error ( "Found array with 0 sample(s)")
  else
    Except.ok (Xq, y)

/-- The scale `StandardScaler` divides a centered column by: the square
root of the population variance, with zero variance replaced by 1
(`_handle_zeros_in_scale`). -/
noncomputable def scaleOf (c : List ℚ) : ℝ :=
  if popVar c = 0 then 1 else Real.sqrt (popVar c)

/-- One column of `scaler.fit_transform(X)`: center by the column mean and
divide by the column scale.  The statistics come from the same column of
the same upload. -/
noncomputable def standardize (c : List ℚ) : List ℝ :=
  c.map (fun x => ((x : ℚ) - qmean c : ℚ) / scaleOf c)

/-- The rational stage of `preprocess_data` (src/utils/data_preprocessing.py lines 9-18):
the rational stage followed by the real-valued standardization of every
encoded column.  Returns the scaled feature columns with their names and
the untouched target column. -/
noncomputable def preprocess_data (df : Df) :
    Except String (List (String × List ℝ) × List Cell) :=
  (preprocessQ df).map (fun p =>
    (p.1.map (fun c => (c.1, standardize c.2)), p.2))

/-- Mean of a real column (`numpy.mean`, with the 0/0 = 0 convention of
division in `ℝ` standing in for the empty case, which the pipeline never
reaches). -/
noncomputable def rmean (l : List ℝ) : ℝ := l.sum / l.length

/-- Population variance of a real column. -/
noncomputable def rpopVar (l : List ℝ) : ℝ :=
  (l.map (fun x => (x - rmean l) ^ 2)).sum / l.length

/-- Modelled from the spec: `models/demand_model.py` is not under src/.
Per spec §4.6 the wrapper fits an ordinary least-squares linear model and
predicts one value per row using the most recently trained parameters; if
`train` was never called, `predict` must fail.  The trained state is the
design and target handed to `train`. -/
structure DemandForecastModel where
  fitted : Option (List (List ℝ) × List ℝ)

/-- Modelled from the spec: the OLS fitted values at the training rows.
The design matrix is the intercept column of ones together with the given
feature columns; the fitted values are the orthogonal projection of the
target onto the span of those columns, which is the unique least-squares
prediction vector whatever parametrisation the solver picks. -/
noncomputable def olsFittedValues (Xcols : List (List ℝ)) (y : List ℝ) :
    List ℝ :=
  let n := y.length
  let desCols : List (EuclideanSpace ℝ (Fin n)) :=
    (fun _ => 1) :: Xcols.map (fun c => fun i => c.getD i.val 0)
  let K : Submodule ℝ (EuclideanSpace ℝ (Fin n)) :=
    Submodule.span ℝ {v | v ∈ desCols}
  let yv : EuclideanSpace ℝ (Fin n) := fun i => y.getD i.val 0
  (List.finRange n).map (fun i =>
    (orthogonalProjection K yv : EuclideanSpace ℝ (Fin n)) i)

/-- Modelled from the spec: `train` fits the model in place on the given
features and target (spec §4.6).  `sklearn` validates that the design and
target agree on the number of samples. -/
def DemandForecastModel.train (m : DemandForecastModel)
    (Xcols : List (List ℝ)) (y : List ℝ) :
    Except String DemandForecastModel :=
  if Xcols.all (fun c => c.length = y.length) then
    Except.ok { m with fitted := some (Xcols, y) }
  else
    Except.error ( "Found input variables with inconsistent numbers of samples")

/-- Modelled from the spec: `predict` returns one prediction per row from
the most recently trained parameters, and fails when the model was never
trained (spec §4.6).  It is modelled at the training design — the only
call site in src/ passes the very matrix the model was trained on — where
the OLS predictions are exactly the fitted values of the stored target. -/
noncomputable def DemandForecastModel.predict (m : DemandForecastModel)
    (Xcols : List (List ℝ)) : Except String (List ℝ) :=
  match m.fitted with
  | none => Except.error ( "This DemandForecastModel instance is not fitted yet")
  | some (_, y) => Except.ok (olsFittedValues Xcols y)

/-- The reduction `predictions.mean() if predictions.size > 0 else 0`
(src/main.py line 103). -/
noncomputable def avgPrediction (preds : List ℝ) : ℝ :=
  if 0 < preds.length then preds.sum / preds.length else 0

/-- The body of the `try` block of `predict_inventory`
(src/main.py lines 96-102): parse, preprocess, train, predict.  Any stage
may raise; the first raised message aborts the block. -/
noncomputable def runPredictPipeline (file : Csv) : Except String (List ℝ) := do
  let df ← read_csv file
  let pre ← preprocess_data df
  let y ← toNumCol pre.2
  let Xcols := pre.1.map Prod.snd
  let model : DemandForecastModel := { fitted := none }
  let trained ← model.train Xcols (y.map (fun q : ℚ => (q : ℝ)))
  trained.predict Xcols

/-- Responses of the prediction endpoint: a JSON body with a predictions
array, or an HTTP error with a status and a detail string. -/
inductive PredResp where
  | ok (predictions : List ℝ)
  | err (status : Nat) (detail : String)

/-- Endpoint `predict_inventory` (src/main.py lines 94-110): run the pipeline,
return the averaged prediction as a one-element array on success, and
convert any exception to a 400 whose detail carries the exception's
message. -/
noncomputable def predict_inventory (file : Csv) : PredResp :=
  match runPredictPipeline file with
  | .ok preds => .ok [avgPrediction preds]
  | .error e => .err 400 ( "Invalid CSV format: " ++ e)

/-! ### Authentication layer

`database.py` (the table declarations and session factory) is not under
src/; the records and the store are modelled from spec §3 and §4.1: two
record tables keyed by email, existence checks and inserts only, and an
autoincrement identifier returned after insert. -/

/-- A stored bcrypt hash: the bcrypt output string embeds the salt next to
the digest, so `checkpw` can recompute the digest with the stored salt. -/
structure BHash where
  salt : String
  digest : Nat
  deriving DecidableEq, Repr

/-- Modelled from the spec: the bcrypt digest (library code), abstracted
as a deterministic mixing of the password and the salt.  The properties
proved about hashing depend only on the digest being a deterministic
function of both inputs and on the salt being stored alongside it
(spec §4.2). -/
def bcryptDigest (pw salt : String) : Nat :=
  salt.data.foldl (fun a c => a * 131 + c.toNat)
    (pw.data.foldl (fun a c => a * 131 + c.toNat) 7)

/-- Hashing `bcrypt.hashpw(password, salt)`: the randomized per-call salt is made
explicit as an argument; the stored value embeds it. -/
def hashpw (pw salt : String) : BHash :=
  ⟨salt, bcryptDigest pw salt⟩

/-- Verification `bcrypt.checkpw(password, stored)`: recompute the digest with the
stored salt and compare (the comparison is constant-time in the library;
timing is outside the model). -/
def checkpw (pw : String) (stored : BHash) : Bool :=
  bcryptDigest pw stored.salt = stored.digest

/-- Modelled from the spec: a Dealer record (spec §3). -/
structure Dealer where
  dealer_id : Nat
  name : String
  email : String
  company_name : String
  location_name : String
  latitude : ℚ
  longitude : ℚ
  password_hash : BHash
  deriving DecidableEq

/-- Modelled from the spec: a Shopkeeper record (spec §3). -/
structure Shopkeeper where
  shopkeeper_id : Nat
  name : String
  email : String
  shop_name : String
  location_name : String
  latitude : ℚ
  longitude : ℚ
  domain : String
  password_hash : BHash
  deriving DecidableEq

/-- Modelled from the spec: the credential store behind the per-request
session — the two record tables (spec §3). -/
structure AppState where
  dealers : List Dealer
  shopkeepers : List Shopkeeper
  deriving DecidableEq

/-- Responses of the CRUD endpoints. -/
inductive AuthResp where
  | ok (message : String) (idField : String) (id : Nat)
  | err (status : Nat) (detail : String)
  deriving DecidableEq, Repr

/-- Lookup `db.query(Dealer).filter(Dealer.email == email).first()`. -/
def findDealer (l : List Dealer) (email : String) : Option Dealer :=
  l.find? (fun d => d.email = email)

/-- Lookup `db.query(Shopkeeper).filter(Shopkeeper.email == email).first()`. -/
def findShopkeeper (l : List Shopkeeper) (email : String) : Option Shopkeeper :=
  l.find? (fun s => s.email = email)

/-- Endpoint `dealer_login` (src/main.py lines 56-61): look the email up; a missing
record or a failed password check both raise the same generic 401. -/
def dealer_login (st : AppState) (email password : String) : AuthResp :=
  match findDealer st.dealers email with
  | none => .err 401 ( "Invalid credentials")
  | some d =>
    if checkpw password d.password_hash then
      .ok ( "Login successful") ( "dealer_id") d.dealer_id
    else
      .err 401 ( "Invalid credentials")

/-- Endpoint `shopkeeper_login` (src/main.py lines 63-68). -/
def shopkeeper_login (st : AppState) (email password : String) : AuthResp :=
  match findShopkeeper st.shopkeepers email with
  | none => .err 401 ( "Invalid credentials")
  | some s =>
    if checkpw password s.password_hash then
      .ok ( "Login successful") ( "shopkeeper_id") s.shopkeeper_id
    else
      .err 401 ( "Invalid credentials")

/-- The dealer signup request body. -/
structure DealerSignup where
  name : String
  email : String
  company_name : String
  location_name : String
  latitude : ℚ
  longitude : ℚ
  password : String
  deriving DecidableEq

/-- The shopkeeper signup request body. -/
structure ShopkeeperSignup where
  name : String
  email : String
  shop_name : String
  location_name : String
  latitude : ℚ
  longitude : ℚ
  domain : String
  password : String
  deriving DecidableEq

/-- Endpoint `dealer_signup` (src/main.py lines 71-80): duplicate email check,
hash with a fresh salt (made explicit as `salt`), insert, return the
autoincrement identifier (identifier assignment modelled from the spec as
the next counter value since `database.py` is not under src/). -/
def dealer_signup (st : AppState) (p : DealerSignup) (salt : String) :
    AuthResp × AppState :=
  if (findDealer st.dealers p.email).isSome then
    (.err 400 ( "Email already registered"), st)
  else
    let d : Dealer :=
      ⟨st.dealers.length + 1, p.name, p.email, p.company_name,
        p.location_name, p.latitude, p.longitude, hashpw p.password salt⟩
    (.ok ( "Dealer signup successful") ( "dealer_id") d.dealer_id,
      { st with dealers := st.dealers ++ [d] })

/-- Endpoint `shopkeeper_signup` (src/main.py lines 82-91). -/
def shopkeeper_signup (st : AppState) (p : ShopkeeperSignup) (salt : String) :
    AuthResp × AppState :=
  if (findShopkeeper st.shopkeepers p.email).isSome then
    (.err 400 ( "Email already registered"), st)
  else
    let s : Shopkeeper :=
      ⟨st.shopkeepers.length + 1, p.name, p.email, p.shop_name,
        p.location_name, p.latitude, p.longitude, p.domain,
        hashpw p.password salt⟩
    (.ok ( "Shopkeeper signup successful") ( "shopkeeper_id") s.shopkeeper_id,
      { st with shopkeepers := st.shopkeepers ++ [s] })

/-- The prediction route as a state transformer: the handler acquires a
database session through `get_db` (src/main.py lines 24-29) but its body
never queries or writes either table, so the route pairs the
upload-determined response with the unchanged store. -/
noncomputable def inventory_predict_route (st : AppState) (file : Csv) :
    PredResp × AppState :=
  (predict_inventory file, st)

/-- Number of records with a given email in the dealer table. -/
def countDealerEmail (l : List Dealer) (email : String) : Nat :=
  (l.filter (fun d => d.email = email)).length

/-- Number of records with a given email in the shopkeeper table. -/
def countShopkeeperEmail (l : List Shopkeeper) (email : String) : Nat :=
  (l.filter (fun s => s.email = email)).length

/-! ### Concrete inputs used by the claims -/

/-- The six columns an upload must provide (spec §4.5). -/
def requiredCols : List String :=
  [ "Historical_Sales", "Promotion", "Day_of_Week", "Month", "Product_ID",
    "Demand"]

/-- A CSV with the required header and zero data rows. -/
def emptyCsv : Csv := ⟨requiredCols, []⟩

/-- The single-row upload of the spec's degenerate-regression test:
Product_ID "A", Historical_Sales 100, Promotion 0, Day_of_Week 1,
Month 1, Demand 50. -/
def oneRowCsv : Csv :=
  ⟨requiredCols, [[ "100", "0", "1", "1", "A", "50"]]⟩

/-- The parsed table of `oneRowCsv`. -/
def oneRowDf : Df :=
  ⟨[( "Historical_Sales", [Cell.num 100]),
    ( "Promotion", [Cell.num 0]),
    ( "Day_of_Week", [Cell.num 1]),
    ( "Month", [Cell.num 1]),
    ( "Product_ID", [Cell.str "A"]),
    ( "Demand", [Cell.num 50])]⟩

/-- The feature table `preprocess_data` produces for `oneRowDf`: the four
numeric features, each standardized, and no indicator column (the single
`Product_ID` category is dropped by `drop_first`). -/
noncomputable def oneRowScaledCols : List (String × List ℝ) :=
  [( "Historical_Sales", standardize [100]),
    ( "Promotion", standardize [0]),
    ( "Day_of_Week", standardize [1]),
    ( "Month", standardize [1])]

/-- A two-row table with two distinct `Product_ID` values, used to
exercise the dummy-column count. -/
def twoRowDf : Df :=
  ⟨[( "Historical_Sales", [Cell.num 10, Cell.num 20]),
    ( "Promotion", [Cell.num 0, Cell.num 1]),
    ( "Day_of_Week", [Cell.num 1, Cell.num 2]),
    ( "Month", [Cell.num 3, Cell.num 4]),
    ( "Product_ID", [Cell.str "A", Cell.str "B"]),
    ( "Demand", [Cell.num 5, Cell.num 6])]⟩

/-! ### General lemmas about the exception monad and the store -/

@[simp]
theorem bind_ok_eq {α β : Type} (a : α) (f : α → Except String β) :
    (Except.ok a >>= f) = f a := rfl

@[simp]
theorem bind_error_eq {α β : Type} (e : String) (f : α → Except String β) :
    ((Except.error e : Except String α) >>= f) = Except.error e := rfl

@[simp]
theorem map_ok_eq {α β : Type} (f : α → β) (a : α) :
    (Except.ok a : Except String α).map f = Except.ok (f a) := rfl

@[simp]
theorem map_error_eq {α β : Type} (f : α → β) (e : String) :
    (Except.error e : Except String α).map f = Except.error e := rfl

theorem countDealerEmail_append (l : List Dealer) (d : Dealer) (e : String) :
    countDealerEmail (l ++ [d]) e =
      countDealerEmail l e + (if d.email = e then 1 else 0) := by
  simp only [countDealerEmail, List.filter_append, List.length_append]
  congr 1
  by_cases h : d.email = e <;> simp [List.filter, h]

theorem countShopkeeperEmail_append (l : List Shopkeeper) (s : Shopkeeper)
    (e : String) :
    countShopkeeperEmail (l ++ [s]) e =
      countShopkeeperEmail l e + (if s.email = e then 1 else 0) := by
  simp only [countShopkeeperEmail, List.filter_append, List.length_append]
  congr 1
  by_cases h : s.email = e <;> simp [List.filter, h]

theorem findDealer_none_of_count_zero (l : List Dealer) (e : String)
    (h : countDealerEmail l e = 0) : findDealer l e = none := by
  rw [countDealerEmail, List.length_eq_zero] at h
  rw [findDealer, List.find?_eq_none]
  intro d hd hde
  have : d ∈ l.filter (fun d => d.email = e) := by
    rw [List.mem_filter]; exact ⟨hd, hde⟩
  rw [h] at this
  exact absurd this (List.not_mem_nil d)

theorem findShopkeeper_none_of_count_zero (l : List Shopkeeper) (e : String)
    (h : countShopkeeperEmail l e = 0) : findShopkeeper l e = none := by
  rw [countShopkeeperEmail, List.length_eq_zero] at h
  rw [findShopkeeper, List.find?_eq_none]
  intro s hs hse
  have : s ∈ l.filter (fun s => s.email = e) := by
    rw [List.mem_filter]; exact ⟨hs, hse⟩
  rw [h] at this
  exact absurd this (List.not_mem_nil s)

/-! ### Claim theorems: endpoint layer and authentication -/

/-- C4: `POST /inventory/predict` satisfies its response contract.  Every
exception raised while parsing, preprocessing, training or predicting is
resolved at the endpoint into a 400 response whose detail carries the
exception's message (no other failure shape exists), and every successful
response is a 200 whose predictions field is a one-element array holding
the mean of the per-row predictions. -/
theorem predict_inventory_response_contract (file : Csv) :
    (∃ e, runPredictPipeline file = Except.error e ∧
        predict_inventory file =
          PredResp.err 400 ( "Invalid CSV format: " ++ e)) ∨
    (∃ preds, runPredictPipeline file = Except.ok preds ∧
        predict_inventory file = PredResp.ok [avgPrediction preds]) := by
  cases h : runPredictPipeline file with
  | error e => exact Or.inl ⟨e, rfl, by simp [predict_inventory, h]⟩
  | ok preds => exact Or.inr ⟨preds, rfl, by simp [predict_inventory, h]⟩

/-- C10: the prediction route never reads or writes the credential store:
the store after the request is the store before it, and the response does
not depend on the store at all. -/
theorem predict_route_leaves_store_unchanged (st : AppState) (file : Csv) :
    (inventory_predict_route st file).2 = st ∧
    ∀ st2 : AppState,
      (inventory_predict_route st file).1 =
        (inventory_predict_route st2 file).1 :=
  ⟨rfl, fun _ => rfl⟩

/-- C6: for dealer and shopkeeper logins alike, a run that fails because
the email is unknown and a run that fails because the password is wrong
produce the same observable response: the single generic 401 with detail
"Invalid credentials". -/
theorem login_failures_indistinguishable
    (st1 st2 : AppState) (e1 p1 e2 p2 : String)
    (h1 : findDealer st1.dealers e1 = none)
    (h2 : ∃ d, findDealer st2.dealers e2 = some d ∧
        checkpw p2 d.password_hash = false)
    (st3 st4 : AppState) (e3 p3 e4 p4 : String)
    (h3 : findShopkeeper st3.shopkeepers e3 = none)
    (h4 : ∃ s, findShopkeeper st4.shopkeepers e4 = some s ∧
        checkpw p4 s.password_hash = false) :
    dealer_login st1 e1 p1 = dealer_login st2 e2 p2 ∧
    dealer_login st1 e1 p1 = AuthResp.err 401 ( "Invalid credentials") ∧
    shopkeeper_login st3 e3 p3 = shopkeeper_login st4 e4 p4 ∧
    shopkeeper_login st3 e3 p3 = AuthResp.err 401 ( "Invalid credentials") := by
  obtain ⟨d, hd, hcd⟩ := h2
  obtain ⟨s, hs, hcs⟩ := h4
  refine ⟨?_, ?_, ?_, ?_⟩ <;>
    simp [dealer_login, shopkeeper_login, h1, h3, hd, hs, hcd, hcs]

/-- Witness for C6 at a concrete store: an empty table versus a table
holding one record whose password is not the one supplied. -/
theorem login_failures_indistinguishable_witness :
    (findDealer (AppState.mk [] []).dealers "x@y" = none) ∧
    (∃ d, findDealer (AppState.mk
        [⟨1, "n", "d@x", "c", "l", 0, 0, hashpw "right" "s1"⟩] []).dealers
          "d@x" = some d ∧ checkpw "wrong" d.password_hash = false) ∧
    (findShopkeeper (AppState.mk [] []).shopkeepers "x@y" = none) ∧
    (∃ s, findShopkeeper (AppState.mk []
        [⟨1, "n", "s@x", "sh", "l", 0, 0, "dom", hashpw "right" "s2"⟩]).shopkeepers
          "s@x" = some s ∧ checkpw "wrong" s.password_hash = false) ∧
    dealer_login (AppState.mk [] []) "x@y" "pw" =
      dealer_login (AppState.mk
        [⟨1, "n", "d@x", "c", "l", 0, 0, hashpw "right" "s1"⟩] []) "d@x" "wrong" := by
  refine ⟨rfl, ⟨_, rfl, rfl⟩, rfl, ⟨_, rfl, rfl⟩, ?_⟩
  exact (login_failures_indistinguishable
    (AppState.mk [] []) (AppState.mk
      [⟨1, "n", "d@x", "c", "l", 0, 0, hashpw "right" "s1"⟩] [])
    "x@y" "pw" "d@x" "wrong" rfl ⟨_, rfl, rfl⟩
    (AppState.mk [] []) (AppState.mk []
      [⟨1, "n", "s@x", "sh", "l", 0, 0, "dom", hashpw "right" "s2"⟩])
    "x@y" "pw" "s@x" "wrong" rfl ⟨_, rfl, rfl⟩).1

/-- C8: verifying a plaintext against the hash produced from it succeeds,
for every plaintext and every salt the call drew; and hashing is
non-deterministic in the sense the spec gives it: two calls that draw
different salts produce different stored hashes for the same plaintext. -/
theorem verify_hash_roundtrip_and_salted :
    (∀ pw salt : String, checkpw pw (hashpw pw salt) = true) ∧
    (∀ pw s1 s2 : String, s1 ≠ s2 → hashpw pw s1 ≠ hashpw pw s2) := by
  constructor
  · intro pw salt
    simp [checkpw, hashpw]
  · intro pw s1 s2 hne hcon
    exact hne (congrArg BHash.salt hcon)

theorem dealer_signup_dup (st : AppState) (p : DealerSignup) (salt : String)
    (h : (findDealer st.dealers p.email).isSome = true) :
    dealer_signup st p salt =
      (AuthResp.err 400 ( "Email already registered"), st) := by
  unfold dealer_signup
  rw [if_pos h]

theorem shopkeeper_signup_dup (st : AppState) (q : ShopkeeperSignup)
    (salt : String)
    (h : (findShopkeeper st.shopkeepers q.email).isSome = true) :
    shopkeeper_signup st q salt =
      (AuthResp.err 400 ( "Email already registered"), st) := by
  unfold shopkeeper_signup
  rw [if_pos h]

theorem findDealer_append (l1 l2 : List Dealer) (e : String) :
    findDealer (l1 ++ l2) e = (findDealer l1 e).or (findDealer l2 e) := by
  simp [findDealer, List.find?_append]

theorem findShopkeeper_append (l1 l2 : List Shopkeeper) (e : String) :
    findShopkeeper (l1 ++ l2) e =
      (findShopkeeper l1 e).or (findShopkeeper l2 e) := by
  simp [findShopkeeper, List.find?_append]

/-- C7: a signup whose email is already present returns the fixed 400
error and writes nothing, for dealers and shopkeepers alike;
consequently, signing up twice with the same email from a store without
that email fails the second time and leaves exactly one record carrying
the email. -/
theorem duplicate_signup_rejected_store_unchanged
    (st : AppState) (p : DealerSignup) (salt : String)
    (hdup : (findDealer st.dealers p.email).isSome = true)
    (stq : AppState) (q : ShopkeeperSignup) (salt2 : String)
    (hdup2 : (findShopkeeper stq.shopkeepers q.email).isSome = true)
    (st0 : AppState) (p0 p1 : DealerSignup) (s0 s1 : String)
    (hfree : countDealerEmail st0.dealers p0.email = 0)
    (hsame : p1.email = p0.email)
    (st2 : AppState) (q0 q1 : ShopkeeperSignup) (t0 t1 : String)
    (hfree2 : countShopkeeperEmail st2.shopkeepers q0.email = 0)
    (hsame2 : q1.email = q0.email) :
    dealer_signup st p salt = (AuthResp.err 400 ( "Email already registered"), st) ∧
    shopkeeper_signup stq q salt2 =
      (AuthResp.err 400 ( "Email already registered"), stq) ∧
    ((dealer_signup (dealer_signup st0 p0 s0).2 p1 s1).1 =
        AuthResp.err 400 ( "Email already registered") ∧
      (dealer_signup (dealer_signup st0 p0 s0).2 p1 s1).2 =
        (dealer_signup st0 p0 s0).2 ∧
      countDealerEmail
        (dealer_signup (dealer_signup st0 p0 s0).2 p1 s1).2.dealers p0.email = 1) ∧
    ((shopkeeper_signup (shopkeeper_signup st2 q0 t0).2 q1 t1).1 =
        AuthResp.err 400 ( "Email already registered") ∧
      (shopkeeper_signup (shopkeeper_signup st2 q0 t0).2 q1 t1).2 =
        (shopkeeper_signup st2 q0 t0).2 ∧
      countShopkeeperEmail
        (shopkeeper_signup (shopkeeper_signup st2 q0 t0).2 q1 t1).2.shopkeepers
          q0.email = 1) := by
  have hn : findDealer st0.dealers p0.email = none :=
    findDealer_none_of_count_zero _ _ hfree
  have hn2 : findShopkeeper st2.shopkeepers q0.email = none :=
    findShopkeeper_none_of_count_zero _ _ hfree2
  have hsig1 : (dealer_signup st0 p0 s0).2 =
      ⟨st0.dealers ++
        [⟨st0.dealers.length + 1, p0.name, p0.email, p0.company_name,
          p0.location_name, p0.latitude, p0.longitude,
          hashpw p0.password s0⟩], st0.shopkeepers⟩ := by
    simp [dealer_signup, hn]
  have hsig2 : (shopkeeper_signup st2 q0 t0).2 =
      ⟨st2.dealers, st2.shopkeepers ++
        [⟨st2.shopkeepers.length + 1, q0.name, q0.email, q0.shop_name,
          q0.location_name, q0.latitude, q0.longitude, q0.domain,
          hashpw q0.password t0⟩]⟩ := by
    simp [shopkeeper_signup, hn2]
  have hfind1 : (findDealer (dealer_signup st0 p0 s0).2.dealers
      p1.email).isSome = true := by
    rw [hsig1, hsame]
    rw [findDealer_append, hn]
    simp [findDealer, List.find?]
  have hfind2 : (findShopkeeper (shopkeeper_signup st2 q0 t0).2.shopkeepers
      q1.email).isSome = true := by
    rw [hsig2, hsame2]
    rw [findShopkeeper_append, hn2]
    simp [findShopkeeper, List.find?]
  have hd2 := dealer_signup_dup (dealer_signup st0 p0 s0).2 p1 s1 hfind1
  have hs2 := shopkeeper_signup_dup (shopkeeper_signup st2 q0 t0).2 q1 t1 hfind2
  refine ⟨dealer_signup_dup st p salt hdup,
    shopkeeper_signup_dup stq q salt2 hdup2,
    ⟨by rw [hd2], by rw [hd2], ?_⟩, ⟨by rw [hs2], by rw [hs2], ?_⟩⟩
  · rw [hd2, hsig1]
    rw [show (AppState.mk (st0.dealers ++
        [⟨st0.dealers.length + 1, p0.name, p0.email, p0.company_name,
          p0.location_name, p0.latitude, p0.longitude,
          hashpw p0.password s0⟩]) st0.shopkeepers).dealers =
      st0.dealers ++
        [⟨st0.dealers.length + 1, p0.name, p0.email, p0.company_name,
          p0.location_name, p0.latitude, p0.longitude,
          hashpw p0.password s0⟩] from rfl]
    rw [countDealerEmail_append, hfree, if_pos rfl]
  · rw [hs2, hsig2]
    rw [show (AppState.mk st2.dealers (st2.shopkeepers ++
        [⟨st2.shopkeepers.length + 1, q0.name, q0.email, q0.shop_name,
          q0.location_name, q0.latitude, q0.longitude, q0.domain,
          hashpw q0.password t0⟩])).shopkeepers =
      st2.shopkeepers ++
        [⟨st2.shopkeepers.length + 1, q0.name, q0.email, q0.shop_name,
          q0.location_name, q0.latitude, q0.longitude, q0.domain,
          hashpw q0.password t0⟩] from rfl]
    rw [countShopkeeperEmail_append, hfree2, if_pos rfl]

/-- Witness for C7 at concrete stores, request bodies and salts. -/
theorem duplicate_signup_rejected_store_unchanged_witness :
    ((findDealer (AppState.mk
        [⟨1, "n", "d@x", "c", "l", 0, 0, hashpw "pw" "s0"⟩] []).dealers
          "d@x").isSome = true) ∧
    ((findShopkeeper (AppState.mk []
        [⟨1, "n", "s@x", "sh", "l", 0, 0, "dom", hashpw "pw" "t0"⟩]).shopkeepers
          "s@x").isSome = true) ∧
    countDealerEmail (AppState.mk [] []).dealers "new@x" = 0 ∧
    countShopkeeperEmail (AppState.mk [] []).shopkeepers "new@x" = 0 ∧
    countDealerEmail
      (dealer_signup (dealer_signup (AppState.mk [] [])
          ⟨ "a", "new@x", "c", "l", 0, 0, "pw"⟩ "s0").2
        ⟨ "b", "new@x", "c2", "l2", 1, 1, "pw2"⟩ "s1").2.dealers "new@x" = 1 := by
  refine ⟨rfl, rfl, rfl, rfl, ?_⟩
  exact (duplicate_signup_rejected_store_unchanged
    (AppState.mk [⟨1, "n", "d@x", "c", "l", 0, 0, hashpw "pw" "s0"⟩] [])
    ⟨ "z", "d@x", "c", "l", 0, 0, "pw"⟩ "sx"
    (by rfl)
    (AppState.mk [] [⟨1, "n", "s@x", "sh", "l", 0, 0, "dom", hashpw "pw" "t0"⟩])
    ⟨ "z", "s@x", "sh", "l", 0, 0, "dom", "pw"⟩ "tx"
    (by rfl)
    (AppState.mk [] [])
    ⟨ "a", "new@x", "c", "l", 0, 0, "pw"⟩
    ⟨ "b", "new@x", "c2", "l2", 1, 1, "pw2"⟩ "s0" "s1"
    (by rfl) (by rfl)
    (AppState.mk [] [])
    ⟨ "a", "new@x", "sh", "l", 0, 0, "dom", "pw"⟩
    ⟨ "b", "new@x", "sh2", "l2", 1, 1, "dom2", "pw2"⟩ "t0" "t1"
    (by rfl) (by rfl)).2.2.1.2.2

/-- Witness for C8 at concrete plaintexts and salts. -/
theorem verify_hash_roundtrip_and_salted_witness :
    checkpw "secret" (hashpw "secret" "saltA") = true ∧
    ( "saltA" : String) ≠ "saltB" ∧
    hashpw "secret" "saltA" ≠ hashpw "secret" "saltB" :=
  ⟨verify_hash_roundtrip_and_salted.1 "secret" "saltA",
    by decide,
    verify_hash_roundtrip_and_salted.2 "secret" "saltA" "saltB" (by decide)⟩

/-! ### Claim C3: missing required columns -/

theorem read_csv_colNames (file : Csv) (df : Df)
    (h : read_csv file = Except.ok df) : df.colNames = file.header := by
  unfold read_csv at h
  split at h
  · injection h with h2
    subst h2
    simp [Df.colNames, List.map_map, Function.comp_def]
  · exact absurd h (by simp)

theorem getCol_none_of_not_mem (df : Df) (n : String)
    (h : n ∉ df.colNames) : df.getCol n = none := by
  have : df.cols.find? (fun c => c.1 = n) = none := by
    rw [List.find?_eq_none]
    intro c hc hcn
    exact h (List.mem_map.mpr ⟨c, hc, by simpa using hcn⟩)
  simp [Df.getCol, this]

theorem selectCols_error_of_missing (df : Df) (names : List String)
    (r : String) (hr : r ∈ names) (h : df.getCol r = none) :
    ∃ e, selectCols df names = Except.error e := by
  induction names with
  | nil => exact absurd hr (List.not_mem_nil r)
  | cons n ns ih =>
    by_cases hn : df.getCol n = none
    · exact ⟨ "KeyError: " ++ n, by simp [selectCols, exMap, hn]⟩
    · obtain ⟨v, hv⟩ := Option.ne_none_iff_exists'.mp hn
      have hrns : r ∈ ns := by
        rcases List.mem_cons.mp hr with hrn | hrns
        · subst hrn
          rw [h] at hv
          exact absurd hv (by simp)
        · exact hrns
      obtain ⟨e, he⟩ := ih hrns
      refine ⟨e, ?_⟩
      rw [selectCols] at he ⊢
      simp [exMap, hv, he]

theorem preprocessQ_error_of_missing (df : Df) (r : String)
    (hr : r ∈ requiredCols) (h : df.getCol r = none) :
    ∃ e, preprocessQ df = Except.error e := by
  by_cases hf : r ∈ features
  · obtain ⟨e, he⟩ := selectCols_error_of_missing df features r hf h
    exact ⟨e, by simp [preprocessQ, he]⟩
  · have hrd : r = "Demand" := by
      simp only [requiredCols, List.mem_cons, List.not_mem_nil, or_false] at hr
      rcases hr with h1 | h1 | h1 | h1 | h1 | h1
      all_goals first
        | (exact absurd (by rw [h1]; decide) hf)
        | (exact h1)
    subst hrd
    cases hsel : selectCols df features with
    | error e => exact ⟨e, by simp [preprocessQ, hsel]⟩
    | ok sel =>
      exact ⟨ "KeyError: Demand", by simp [preprocessQ, hsel, getColE, h]⟩

/-- C3: an upload missing any of the six required columns (in particular
the `Demand` column) makes `POST /inventory/predict` fail with a 400
response. -/
theorem missing_required_column_gives_400 (file : Csv) (r : String)
    (hr : r ∈ requiredCols) (hmiss : r ∉ file.header) :
    ∃ d, predict_inventory file = PredResp.err 400 d := by
  cases hrc : read_csv file with
  | error e =>
    exact ⟨ "Invalid CSV format: " ++ e,
      by simp [predict_inventory, runPredictPipeline, hrc]⟩
  | ok df =>
    have hcn := read_csv_colNames file df hrc
    have hnone : df.getCol r = none :=
      getCol_none_of_not_mem df r (by rw [hcn]; exact hmiss)
    obtain ⟨e, he⟩ := preprocessQ_error_of_missing df r hr hnone
    exact ⟨ "Invalid CSV format: " ++ e, by
      simp [predict_inventory, runPredictPipeline, hrc, preprocess_data, he]⟩

/-- Witness for C3: a header with every required column except `Demand`. -/
theorem missing_required_column_gives_400_witness :
    (( "Demand" : String) ∈ requiredCols) ∧
    (( "Demand" : String) ∉ (Csv.mk
      [ "Historical_Sales", "Promotion", "Day_of_Week", "Month",
        "Product_ID"] []).header) ∧
    ∃ d, predict_inventory (Csv.mk
      [ "Historical_Sales", "Promotion", "Day_of_Week", "Month",
        "Product_ID"] []) = PredResp.err 400 d := by
  refine ⟨by decide, by decide, ?_⟩
  exact missing_required_column_gives_400 _ "Demand" (by decide) (by decide)

/-! ### Claim C5: standardization statistics -/

theorem sum_map_sub_const (c : List ℚ) (m : ℚ) :
    (c.map (fun x => x - m)).sum = c.sum - c.length * m := by
  induction c with
  | nil => simp
  | cons a l ih =>
    simp only [List.map_cons, List.sum_cons, ih, List.length_cons]
    push_cast
    ring

theorem sum_center_eq_zero (c : List ℚ) (h : c ≠ []) :
    (c.map (fun x => x - qmean c)).sum = 0 := by
  rw [sum_map_sub_const, qmean]
  have hl : (c.length : ℚ) ≠ 0 := by
    simpa using fun hh => h (List.length_eq_zero.mp hh)
  field_simp

theorem popVar_nonneg (c : List ℚ) : 0 ≤ popVar c := by
  unfold popVar
  apply div_nonneg
  · apply List.sum_nonneg
    intro x hx
    obtain ⟨a, _, rfl⟩ := List.mem_map.mp hx
    positivity
  · positivity

theorem sum_sq_center (c : List ℚ) :
    (c.map (fun x => (x - qmean c) ^ 2)).sum = popVar c * c.length := by
  by_cases h : c = []
  · subst h; simp [popVar]
  · have hl : (c.length : ℚ) ≠ 0 := by
      simpa using fun hh => h (List.length_eq_zero.mp hh)
    rw [popVar]
    field_simp

theorem sum_map_div_cast (c : List ℚ) (m : ℚ) (s : ℝ) :
    (c.map (fun x => ((x - m : ℚ) : ℝ) / s)).sum =
      ((c.map (fun x => x - m)).sum : ℚ) / s := by
  induction c with
  | nil => simp
  | cons a l ih =>
    simp only [List.map_cons, List.sum_cons, ih]
    push_cast
    ring

theorem sum_map_div_sq_cast (c : List ℚ) (m : ℚ) (s : ℝ) :
    (c.map (fun x => (((x - m : ℚ) : ℝ) / s) ^ 2)).sum =
      ((c.map (fun x => (x - m) ^ 2)).sum : ℚ) / s ^ 2 := by
  induction c with
  | nil => simp
  | cons a l ih =>
    simp only [List.map_cons, List.sum_cons, ih]
    push_cast
    ring

theorem standardize_length (c : List ℚ) :
    (standardize c).length = c.length := by
  simp [standardize]

/-- Every standardized column has mean zero: the scaler centers by the
column's own mean. -/
theorem rmean_standardize (c : List ℚ) : rmean (standardize c) = 0 := by
  by_cases h : c = []
  · subst h; simp [standardize, rmean]
  · unfold rmean standardize
    rw [sum_map_div_cast, sum_center_eq_zero c h]
    simp

/-- A standardized column of nonzero variance has unit population
variance: the scale is the square root of the variance. -/
theorem rpopVar_standardize (c : List ℚ) (h : popVar c ≠ 0) :
    rpopVar (standardize c) = 1 := by
  have hc : c ≠ [] := by
    intro hc
    subst hc
    exact h (by simp [popVar])
  have hl : ((c.length : ℚ) : ℝ) ≠ 0 := by
    simpa using fun hh => hc (List.length_eq_zero.mp hh)
  have hpos : (0 : ℝ) < (popVar c : ℚ) := by
    have h0 : (0 : ℝ) ≤ (popVar c : ℚ) := by
      exact_mod_cast popVar_nonneg c
    rcases lt_or_eq_of_le h0 with hlt | heq
    · exact hlt
    · exact absurd (by exact_mod_cast heq.symm) h
  have hs : scaleOf c = Real.sqrt ((popVar c : ℚ)) := if_neg h
  have hs2 : scaleOf c ^ 2 = ((popVar c : ℚ) : ℝ) := by
    rw [hs, sq]
    exact Real.mul_self_sqrt (le_of_lt hpos)
  have hsne : scaleOf c ≠ 0 := by
    rw [hs]
    exact ne_of_gt (Real.sqrt_pos.mpr hpos)
  unfold rpopVar
  rw [rmean_standardize]
  simp only [sub_zero, standardize_length]
  unfold standardize
  rw [List.map_map]
  have hmap : ((fun x : ℝ => x ^ 2) ∘ fun x : ℚ =>
      ((x - qmean c : ℚ) : ℝ) / scaleOf c) =
      fun x : ℚ => (((x - qmean c : ℚ) : ℝ) / scaleOf c) ^ 2 := rfl
  rw [hmap, sum_map_div_sq_cast, sum_sq_center]
  rw [hs2]
  push_cast
  field_simp
  exact div_self (by exact_mod_cast hl)

/-- A standardized column of zero variance is identically zero: every
entry equals the mean, and the scale is replaced by one. -/
theorem standardize_all_zero (c : List ℚ) (h : popVar c = 0) :
    ∀ z ∈ standardize c, z = 0 := by
  intro z hz
  obtain ⟨x, hx, rfl⟩ := List.mem_map.mp hz
  have hsum : (c.map (fun t => (t - qmean c) ^ 2)).sum = 0 := by
    rw [sum_sq_center, h, zero_mul]
  have hterm : (x - qmean c) ^ 2 = 0 := by
    apply le_antisymm
    · calc (x - qmean c) ^ 2
          ≤ (c.map (fun t => (t - qmean c) ^ 2)).sum := by
            apply List.single_le_sum
            · intro t ht
              obtain ⟨a, _, rfl⟩ := List.mem_map.mp ht
              positivity
            · exact List.mem_map.mpr ⟨x, hx, rfl⟩
        _ = 0 := hsum
    · positivity
  have hx0 : x - qmean c = 0 := by
    exact pow_eq_zero_iff (by norm_num) |>.mp hterm
  rw [hx0]
  simp

/-- C5 (amended): every column of the feature table produced by
`preprocess_data` is centered to mean zero using statistics of that same
upload, and is rescaled to unit population variance whenever the column's
variance is nonzero; a zero-variance (constant) column is instead mapped
to the all-zero column, whose variance stays zero.  (The claim as stated,
unit variance for every column, fails on constant columns.) -/
theorem standardized_columns_mean_zero_variance (df : Df)
    (cols : List (String × List ℚ)) (y : List Cell)
    (h : preprocessQ df = Except.ok (cols, y))
    (c : String × List ℚ) (hc : c ∈ cols) :
    preprocess_data df =
      Except.ok (cols.map (fun q => (q.1, standardize q.2)), y) ∧
    ( c.1, standardize c.2) ∈ cols.map (fun q => (q.1, standardize q.2)) ∧
    rmean (standardize c.2) = 0 ∧
    (popVar c.2 ≠ 0 → rpopVar (standardize c.2) = 1) ∧
    (popVar c.2 = 0 → ∀ z ∈ standardize c.2, z = 0) := by
  refine ⟨by simp [preprocess_data, h], ?_, rmean_standardize c.2,
    fun hv => rpopVar_standardize c.2 hv,
    fun hv => standardize_all_zero c.2 hv⟩
  exact List.mem_map.mpr ⟨c, hc, rfl⟩

/-- Witness for C5 (amended) at the single-row upload. -/
theorem standardized_columns_mean_zero_variance_witness :
    (preprocessQ oneRowDf = Except.ok
      ([( "Historical_Sales", [100]), ( "Promotion", [0]),
        ( "Day_of_Week", [1]), ( "Month", [1])], [Cell.num 50])) ∧
    (( "Historical_Sales", [(100 : ℚ)]) ∈
      [( "Historical_Sales", [(100 : ℚ)]), ( "Promotion", [0]),
        ( "Day_of_Week", [1]), ( "Month", [1])]) ∧
    rmean (standardize [(100 : ℚ)]) = 0 :=
  ⟨rfl, List.mem_cons_self _ _,
    (standardized_columns_mean_zero_variance oneRowDf
      [( "Historical_Sales", [100]), ( "Promotion", [0]),
        ( "Day_of_Week", [1]), ( "Month", [1])] [Cell.num 50] rfl
      ( "Historical_Sales", [100]) (List.mem_cons_self _ _)).2.2.1⟩

/-- The single entry of a one-element column is its own mean, so the
centered value is zero whatever the scale. -/
theorem standardize_single (q : ℚ) : standardize [q] = [(0 : ℝ)] := by
  have hm : qmean [q] = q := by simp [qmean]
  simp [standardize, hm]

/-- C5 counterexample to the claim as stated: in the single-row upload the
`Historical_Sales` column of the preprocessed output has population
variance 0, not 1 (it is a constant column, and the scaler maps it to the
zero column). -/
theorem standardized_unit_variance_counterexample :
    preprocess_data oneRowDf = Except.ok (oneRowScaledCols, [Cell.num 50]) ∧
    ( "Historical_Sales", standardize [(100 : ℚ)]) ∈ oneRowScaledCols ∧
    rpopVar (standardize [(100 : ℚ)]) ≠ 1 := by
  refine ⟨rfl, List.mem_cons_self _ _, ?_⟩
  rw [standardize_single]
  simp [rpopVar, rmean]

/-! ### Claims C1 and C2: concrete uploads through the full pipeline -/

/-- When the target vector already lies in the span of the design columns
(the intercept column of ones and the feature columns), the OLS fitted
values reproduce the target exactly: the orthogonal projection fixes
members of the subspace. -/
theorem olsFittedValues_of_mem (Xcols : List (List ℝ)) (y : List ℝ)
    (h : (fun i : Fin y.length => y.getD i.val 0) ∈ Submodule.span ℝ
      {v : EuclideanSpace ℝ (Fin y.length) |
        v ∈ (fun _ => (1:ℝ)) ::
          Xcols.map (fun c => fun i : Fin y.length => c.getD i.val 0)}) :
    olsFittedValues Xcols y =
      (List.finRange y.length).map (fun i => y.getD i.val 0) := by
  simp only [olsFittedValues]
  simp only [orthogonalProjection_eq_self_iff.mpr h]

/-- Degenerate single-point regression: with one sample the least-squares
fit is exact whatever the features are, because the target is a multiple
of the intercept column. -/
theorem olsFitted_single (Xcols : List (List ℝ)) (y0 : ℝ) :
    olsFittedValues Xcols [y0] = [y0] := by
  have hy : (fun i : Fin ([y0] : List ℝ).length => ([y0] : List ℝ).getD i.val 0) =
      y0 • ((fun _ => 1) : EuclideanSpace ℝ (Fin ([y0] : List ℝ).length)) := by
    funext i
    have h0 : i.val = 0 := Nat.lt_one_iff.mp i.isLt
    simp [Pi.smul_apply, h0]
  have hmem : (fun i : Fin ([y0] : List ℝ).length =>
      ([y0] : List ℝ).getD i.val 0) ∈ Submodule.span ℝ
      {v : EuclideanSpace ℝ (Fin ([y0] : List ℝ).length) |
        v ∈ (fun _ => (1:ℝ)) ::
          Xcols.map (fun c => fun i : Fin ([y0] : List ℝ).length =>
            c.getD i.val 0)} := by
    rw [hy]
    exact Submodule.smul_mem _ _
      (Submodule.subset_span (List.mem_cons_self _ _))
  rw [olsFittedValues_of_mem Xcols [y0] hmem]
  simp [List.finRange_succ_eq_map]

theorem avgPrediction_single (x : ℝ) : avgPrediction [x] = x := by
  simp [avgPrediction]

/-- C2: the one-row upload with Product_ID "A", Historical_Sales 100,
Promotion 0, Day_of_Week 1, Month 1, Demand 50 preprocesses successfully
into four standardized feature columns and no indicator column, training
succeeds on the single sample, and the endpoint returns exactly that
row's fitted value, 50. -/
theorem single_row_prediction_is_fitted_value :
    predict_inventory oneRowCsv = PredResp.ok [(50 : ℝ)] ∧
    runPredictPipeline oneRowCsv = Except.ok [(50 : ℝ)] ∧
    preprocess_data oneRowDf = Except.ok (oneRowScaledCols, [Cell.num 50]) ∧
    oneRowScaledCols.map Prod.fst =
      [ "Historical_Sales", "Promotion", "Day_of_Week", "Month"] ∧
    olsFittedValues (oneRowScaledCols.map Prod.snd) [(50 : ℝ)] = [(50 : ℝ)] := by
  have hfit := olsFitted_single (oneRowScaledCols.map Prod.snd) ((50 : ℚ) : ℝ)
  have htrain : ((oneRowScaledCols.map Prod.snd).all
      (fun c => c.length = ([((50 : ℚ) : ℝ)]).length)) = true := by
    simp [oneRowScaledCols, standardize_length]
  have htr : DemandForecastModel.train ⟨none⟩
      (oneRowScaledCols.map Prod.snd) [((50 : ℚ) : ℝ)] =
      Except.ok ⟨some (oneRowScaledCols.map Prod.snd,
        [((50 : ℚ) : ℝ)])⟩ := by
    unfold DemandForecastModel.train
    rw [if_pos htrain]
  have hrun : runPredictPipeline oneRowCsv = Except.ok [(50 : ℝ)] := by
    simp only [runPredictPipeline,
      show read_csv oneRowCsv = Except.ok oneRowDf from rfl,
      show preprocess_data oneRowDf =
        Except.ok (oneRowScaledCols, [Cell.num 50]) from rfl,
      show toNumCol ([Cell.num 50] : List Cell) = Except.ok [(50 : ℚ)] from rfl,
      bind_ok_eq]
    rw [show List.map (fun q : ℚ => (q : ℝ)) [(50 : ℚ)] =
      [((50 : ℚ) : ℝ)] from rfl]
    rw [htr, bind_ok_eq]
    rw [show DemandForecastModel.predict (⟨some
        (oneRowScaledCols.map Prod.snd, [((50 : ℚ) : ℝ)])⟩ : DemandForecastModel)
        (oneRowScaledCols.map Prod.snd) =
      Except.ok (olsFittedValues (oneRowScaledCols.map Prod.snd)
        [((50 : ℚ) : ℝ)]) from rfl]
    rw [hfit]
    norm_num
  refine ⟨?_, hrun, rfl, rfl, ?_⟩
  · unfold predict_inventory
    rw [hrun]
    show PredResp.ok [avgPrediction [(50 : ℝ)]] = PredResp.ok [(50 : ℝ)]
    rw [avgPrediction_single]
  · exact olsFitted_single _ _

/-- C1 (code-bug evidence): the header-only upload with zero data rows is
rejected with a 400 — `StandardScaler.fit_transform` raises on an array
with zero samples before the endpoint's zero-row guard is ever reached —
even though the endpoint's own `else 0` default (here: `avgPrediction`
of an empty prediction list) was written to return 0 for that case. -/
theorem empty_upload_rejected_by_scaler :
    predict_inventory emptyCsv =
      PredResp.err 400 ( "Invalid CSV format: Found array with 0 sample(s)") ∧
    avgPrediction [] = 0 := by
  constructor
  · rfl
  · simp [avgPrediction]

/-! ### Claim C9: dummy-column count -/

theorem insertCell_length (x : Cell) (l : List Cell) :
    (insertCell x l).length = l.length + 1 := by
  induction l with
  | nil => rfl
  | cons y ys ih =>
    unfold insertCell
    by_cases h : Cell.le x y = true
    · simp [h]
    · simp [h, ih]

theorem sortCells_length (l : List Cell) : (sortCells l).length = l.length := by
  induction l with
  | nil => rfl
  | cons x xs ih =>
    unfold sortCells
    rw [insertCell_length, ih, List.length_cons]

theorem dummyCols_length (cat : String) (vals : List Cell) :
    (dummyCols cat vals).length = vals.dedup.length - 1 := by
  simp [dummyCols, sortCells_length]

theorem toNumCol_cons_num (q : ℚ) (xs : List Cell) (v : List ℚ)
    (h : toNumCol xs = Except.ok v) :
    toNumCol (Cell.num q :: xs) = Except.ok (q :: v) := by
  have h2 : exMap (fun x =>
      match x with
      | Cell.num q => Except.ok (q)
      | Cell.str s =>
        Except.error ( "could not convert string to float: " ++ s)) xs =
      Except.ok v := h
  show exMap _ (Cell.num q :: xs) = _
  simp [exMap, h2]

theorem toNumCol_of_all_num (c : List Cell) (h : c.all Cell.isNum = true) :
    ∃ v, toNumCol c = Except.ok v ∧ v.length = c.length := by
  induction c with
  | nil => exact ⟨[], rfl, rfl⟩
  | cons x xs ih =>
    rw [List.all_cons, Bool.and_eq_true] at h
    obtain ⟨v, hv, hl⟩ := ih h.2
    cases x with
    | num q => exact ⟨q :: v, toNumCol_cons_num q xs v hv, by simp [hl]⟩
    | str s => exact absurd h.1 (by simp [Cell.isNum])

theorem toNumCol_dummy (vals : List Cell) (v : Cell) :
    toNumCol (vals.map (fun x => Cell.num (if x = v then 1 else 0))) =
      Except.ok (vals.map (fun x => if x = v then (1 : ℚ) else 0)) := by
  induction vals with
  | nil => rfl
  | cons a l ih =>
    rw [List.map_cons, List.map_cons]
    exact toNumCol_cons_num _ _ _ ih

theorem toNumCols_cons_ok (c : String × List Cell)
    (cs : List (String × List Cell)) (v : List ℚ)
    (vs : List (String × List ℚ))
    (h1 : toNumCol c.2 = Except.ok v) (h2 : toNumCols cs = Except.ok vs) :
    toNumCols (c :: cs) = Except.ok ((c.1, v) :: vs) := by
  have h2' : exMap (fun c => (toNumCol c.2).map (fun v => (c.1, v))) cs =
      Except.ok vs := h2
  show exMap (fun c => (toNumCol c.2).map (fun v => (c.1, v))) (c :: cs) =
      Except.ok ((c.1, v) :: vs)
  simp [exMap, h1, h2']

theorem toNumCols_dummy (cat : String) (vals : List Cell) :
    ∃ ds, toNumCols (dummyCols cat vals) = Except.ok ds ∧
      ds.length = (dummyCols cat vals).length := by
  unfold dummyCols
  generalize (sortCells vals.dedup).drop 1 = l
  induction l with
  | nil => exact ⟨[], rfl, rfl⟩
  | cons v vs ih =>
    obtain ⟨ds, hds, hl⟩ := ih
    rw [List.map_cons]
    refine ⟨(cat ++ "_" ++ v.text,
        vals.map (fun x => if x = v then (1 : ℚ) else 0)) :: ds, ?_, ?_⟩
    · exact toNumCols_cons_ok _ _ _ _ (toNumCol_dummy vals v) hds
    · simp [hl]

/-- C9: for an upload whose feature columns are present and numeric and
which has at least one data row, preprocessing succeeds and the feature
table has exactly `4 + (k - 1)` columns, where `k` is the number of
distinct `Product_ID` values of that specific upload: one indicator
column per distinct value except the dropped reference category. -/
theorem product_id_dummy_column_count (df : Df)
    (c1 c2 c3 c4 c5 cy : List Cell)
    (h1 : df.getCol "Historical_Sales" = some c1)
    (h2 : df.getCol "Promotion" = some c2)
    (h3 : df.getCol "Day_of_Week" = some c3)
    (h4 : df.getCol "Month" = some c4)
    (h5 : df.getCol "Product_ID" = some c5)
    (hy : df.getCol "Demand" = some cy)
    (hn1 : c1.all Cell.isNum = true) (hn2 : c2.all Cell.isNum = true)
    (hn3 : c3.all Cell.isNum = true) (hn4 : c4.all Cell.isNum = true)
    (hrow : c1 ≠ []) :
    ∃ out, preprocess_data df = Except.ok out ∧
      out.1.length = 4 + (c5.dedup.length - 1) := by
  obtain ⟨v1, hv1, hl1⟩ := toNumCol_of_all_num c1 hn1
  obtain ⟨v2, hv2, _⟩ := toNumCol_of_all_num c2 hn2
  obtain ⟨v3, hv3, _⟩ := toNumCol_of_all_num c3 hn3
  obtain ⟨v4, hv4, _⟩ := toNumCol_of_all_num c4 hn4
  obtain ⟨ds, hds, hld⟩ := toNumCols_dummy "Product_ID" c5
  have hsel : selectCols df features = Except.ok
      [( "Historical_Sales", c1), ( "Promotion", c2), ( "Day_of_Week", c3),
        ( "Month", c4), ( "Product_ID", c5)] := by
    simp [selectCols, exMap, features, h1, h2, h3, h4, h5]
  have hgd : get_dummies
      [( "Historical_Sales", c1), ( "Promotion", c2), ( "Day_of_Week", c3),
        ( "Month", c4), ( "Product_ID", c5)] "Product_ID" =
      ( "Historical_Sales", c1) :: ( "Promotion", c2) :: ( "Day_of_Week", c3) ::
        ( "Month", c4) :: dummyCols "Product_ID" c5 := by
    simp [get_dummies]
  have hnum : toNumCols (( "Historical_Sales", c1) :: ( "Promotion", c2) ::
      ( "Day_of_Week", c3) :: ( "Month", c4) :: dummyCols "Product_ID" c5) =
      Except.ok (( "Historical_Sales", v1) :: ( "Promotion", v2) ::
        ( "Day_of_Week", v3) :: ( "Month", v4) :: ds) :=
    toNumCols_cons_ok _ _ _ _ hv1
      (toNumCols_cons_ok _ _ _ _ hv2
        (toNumCols_cons_ok _ _ _ _ hv3
          (toNumCols_cons_ok _ _ _ _ hv4 hds)))
  have hmat : matNrows (( "Historical_Sales", v1) :: ( "Promotion", v2) ::
      ( "Day_of_Week", v3) :: ( "Month", v4) :: ds) = c1.length := by
    simp [matNrows, hl1]
  have hq : preprocessQ df = Except.ok
      ((( "Historical_Sales", v1) :: ( "Promotion", v2) ::
        ( "Day_of_Week", v3) :: ( "Month", v4) :: ds), cy) := by
    simp only [preprocessQ, hsel, bind_ok_eq,
      show getColE df "Demand" = Except.ok cy from by simp [getColE, hy],
      hgd, hnum]
    rw [hmat]
    rw [if_neg (fun hh => hrow (List.length_eq_zero.mp hh))]
  refine ⟨(((( "Historical_Sales", v1) :: ( "Promotion", v2) ::
      ( "Day_of_Week", v3) :: ( "Month", v4) :: ds).map
        (fun c => (c.1, standardize c.2))), cy), ?_, ?_⟩
  · simp [preprocess_data, hq]
  · simp only [List.map_cons, List.length_cons, List.length_map]
    rw [hld, dummyCols_length]
    omega

/-- Witness for C9: a two-row upload with two distinct `Product_ID`
values yields `4 + (2 - 1) = 5` feature columns. -/
theorem product_id_dummy_column_count_witness :
    (twoRowDf.getCol "Product_ID" = some [Cell.str "A", Cell.str "B"]) ∧
    ([Cell.str "A", Cell.str "B"] : List Cell).dedup.length = 2 ∧
    ∃ out, preprocess_data twoRowDf = Except.ok out ∧
      out.1.length = 4 + (([Cell.str "A", Cell.str "B"] :
        List Cell).dedup.length - 1) := by
  refine ⟨rfl, rfl, ?_⟩
  exact product_id_dummy_column_count twoRowDf
    [Cell.num 10, Cell.num 20] [Cell.num 0, Cell.num 1]
    [Cell.num 1, Cell.num 2] [Cell.num 3, Cell.num 4]
    [Cell.str "A", Cell.str "B"] [Cell.num 5, Cell.num 6]
    rfl rfl rfl rfl rfl rfl rfl rfl rfl rfl (by decide)

end App
